import Mathlib

/-!
# The Vulkan backend's C binding (`cimgui_impl_vulkan.cpp`)

The file under study is the generated C-linkage layer in front of the Vulkan
backend of Dear ImGui.  It defines seventeen functions in `namespace cimgui`;
each body is a single call of an entry point of the wrapped backend (global
namespace), with `reinterpret_cast` on the three struct pointers whose C-side
type differs from the C++ one.

The embedding is shallow.  The wrapped backend is not part of the file, so it
is a parameter (`Backend`): one uninterpreted state transformer per entry
point that the file calls, over an arbitrary state type `σ` and an arbitrary
type `ε` of errors that may leave a call.  Every wrapper is a Lean function of
the backend and of its C arguments.  The functions are those of the build
without `IMGUI_DISABLE`; with it the file defines nothing.

For the one property that is about what the bodies may touch (the layer
keeps no state of its own) the bodies are given a second time as program
text, run by an evaluator, and shown to agree with the Lean functions.
-/

namespace ImplVulkan

/-! ## Values that cross the boundary -/

/-- Object types that occur behind a pointer in the signatures of the file.
The `cimgui_` constructors are the types declared by `cimgui_impl_vulkan.h`
inside `namespace cimgui`; the others are the global C++ or Vulkan types. -/
inductive CType
  | cimgui_ImGui_ImplVulkan_InitInfo
  | ImGui_ImplVulkan_InitInfo
  | cimgui_ImDrawData
  | ImDrawData
  | cimgui_ImGui_ImplVulkanH_Window
  | ImGui_ImplVulkanH_Window
  | VkAllocationCallbacks
  | VkFormat
  | VkPresentModeKHR
  | void
  deriving DecidableEq, Repr

/-- A data pointer `T*`: the static pointee type is the index, the run-time
content is the address.  Address `0` is the null pointer. -/
structure Ptr (T : CType) where
  addr : Nat
  deriving DecidableEq, Repr

/-- The null pointer of type `T*`. -/
def Ptr.null (T : CType) : Ptr T := ⟨0⟩

/-- `reinterpret_cast<T*>(p)` for object pointers: the pointee type changes,
the address does not, and nothing is read or written. -/
def reinterpret_cast (T : CType) {U : CType} (p : Ptr U) : Ptr T := ⟨p.addr⟩

/-- C `uint32_t`; the file only passes such values on. -/
abbrev uint32_t := Nat
/-- C `int`; the file only passes such values on. -/
abbrev int := Int

/-- Vulkan handle `VkInstance`. -/
abbrev VkInstance := Nat
/-- Vulkan handle `VkPhysicalDevice`. -/
abbrev VkPhysicalDevice := Nat
/-- Vulkan handle `VkDevice`. -/
abbrev VkDevice := Nat
/-- Vulkan handle `VkCommandBuffer`. -/
abbrev VkCommandBuffer := Nat
/-- Vulkan handle `VkPipeline`. -/
abbrev VkPipeline := Nat
/-- Vulkan handle `VkSampler`. -/
abbrev VkSampler := Nat
/-- Vulkan handle `VkImageView`. -/
abbrev VkImageView := Nat
/-- Vulkan handle `VkDescriptorSet`. -/
abbrev VkDescriptorSet := Nat
/-- Vulkan handle `VkSurfaceKHR`. -/
abbrev VkSurfaceKHR := Nat
/-- Vulkan enumeration `VkImageLayout`. -/
abbrev VkImageLayout := Int
/-- Vulkan enumeration `VkFormat`. -/
abbrev VkFormat := Int
/-- Vulkan enumeration `VkColorSpaceKHR`. -/
abbrev VkColorSpaceKHR := Int
/-- Vulkan enumeration `VkPresentModeKHR`. -/
abbrev VkPresentModeKHR := Int

/-- Vulkan struct `VkSurfaceFormatKHR`, returned by value. -/
structure VkSurfaceFormatKHR where
  format : VkFormat
  colorSpace : VkColorSpaceKHR
  deriving DecidableEq, Repr

/-- The function pointer type
`PFN_vkVoidFunction (*)(const char* function_name, void* user_data)`,
identified by the address of the function. -/
structure LoaderFunc where
  addr : Nat
  deriving DecidableEq, Repr

/-! ## Calls -/

/-- A C++ function body seen from outside: from the state at entry to what
the call yields (a returned value, or an error leaving the call) together with
the state at exit. -/
abbrev Fn (σ ε α : Type) := σ → Except ε α × σ

/-- The part of `imgui_impl_vulkan.h` that the file uses: the fifteen entry
points it calls, each an arbitrary state transformer, and the two default
arguments of the declarations (`pipeline` of `ImGui_ImplVulkan_RenderDrawData`
and `user_data` of `ImGui_ImplVulkan_LoadFunctions`), which a call site that
omits the argument receives. -/
structure Backend (σ ε : Type) where
  ImGui_ImplVulkan_Init : Ptr .ImGui_ImplVulkan_InitInfo → Fn σ ε Bool
  ImGui_ImplVulkan_Shutdown : Fn σ ε Unit
  ImGui_ImplVulkan_NewFrame : Fn σ ε Unit
  ImGui_ImplVulkan_RenderDrawData :
    Ptr .ImDrawData → VkCommandBuffer → VkPipeline → Fn σ ε Unit
  RenderDrawData_default_pipeline : VkPipeline
  ImGui_ImplVulkan_CreateFontsTexture : Fn σ ε Bool
  ImGui_ImplVulkan_DestroyFontsTexture : Fn σ ε Unit
  ImGui_ImplVulkan_SetMinImageCount : uint32_t → Fn σ ε Unit
  ImGui_ImplVulkan_AddTexture :
    VkSampler → VkImageView → VkImageLayout → Fn σ ε VkDescriptorSet
  ImGui_ImplVulkan_RemoveTexture : VkDescriptorSet → Fn σ ε Unit
  ImGui_ImplVulkan_LoadFunctions : LoaderFunc → Ptr .void → Fn σ ε Bool
  LoadFunctions_default_user_data : Ptr .void
  ImGui_ImplVulkanH_CreateOrResizeWindow :
    VkInstance → VkPhysicalDevice → VkDevice → Ptr .ImGui_ImplVulkanH_Window →
      uint32_t → Ptr .VkAllocationCallbacks → int → int → uint32_t → Fn σ ε Unit
  ImGui_ImplVulkanH_DestroyWindow :
    VkInstance → VkDevice → Ptr .ImGui_ImplVulkanH_Window →
      Ptr .VkAllocationCallbacks → Fn σ ε Unit
  ImGui_ImplVulkanH_SelectSurfaceFormat :
    VkPhysicalDevice → VkSurfaceKHR → Ptr .VkFormat → int → VkColorSpaceKHR →
      Fn σ ε VkSurfaceFormatKHR
  ImGui_ImplVulkanH_SelectPresentMode :
    VkPhysicalDevice → VkSurfaceKHR → Ptr .VkPresentModeKHR → int →
      Fn σ ε VkPresentModeKHR
  ImGui_ImplVulkanH_GetMinImageCountFromPresentMode : VkPresentModeKHR → Fn σ ε int

/-! ## The seventeen functions of the file -/

namespace cimgui

variable {σ ε : Type}

/-- Source lines 22-25. -/
def cImGui_ImplVulkan_Init (L : Backend σ ε)
    (info : Ptr .cimgui_ImGui_ImplVulkan_InitInfo) : Fn σ ε Bool :=
  L.ImGui_ImplVulkan_Init (reinterpret_cast .ImGui_ImplVulkan_InitInfo info)

/-- Source lines 27-30. -/
def cImGui_ImplVulkan_Shutdown (L : Backend σ ε) : Fn σ ε Unit :=
  L.ImGui_ImplVulkan_Shutdown

/-- Source lines 32-35. -/
def cImGui_ImplVulkan_NewFrame (L : Backend σ ε) : Fn σ ε Unit :=
  L.ImGui_ImplVulkan_NewFrame

/-- Source lines 37-40.  The call names two arguments; the third parameter of
the callee takes the default of its declaration. -/
def cImGui_ImplVulkan_RenderDrawData (L : Backend σ ε)
    (draw_data : Ptr .cimgui_ImDrawData) (command_buffer : VkCommandBuffer) : Fn σ ε Unit :=
  L.ImGui_ImplVulkan_RenderDrawData (reinterpret_cast .ImDrawData draw_data) command_buffer
    L.RenderDrawData_default_pipeline

/-- Source lines 42-45. -/
def cImGui_ImplVulkan_RenderDrawDataEx (L : Backend σ ε)
    (draw_data : Ptr .cimgui_ImDrawData) (command_buffer : VkCommandBuffer)
    (pipeline : VkPipeline) : Fn σ ε Unit :=
  L.ImGui_ImplVulkan_RenderDrawData (reinterpret_cast .ImDrawData draw_data) command_buffer
    pipeline

/-- Source lines 47-50. -/
def cImGui_ImplVulkan_CreateFontsTexture (L : Backend σ ε) : Fn σ ε Bool :=
  L.ImGui_ImplVulkan_CreateFontsTexture

/-- Source lines 52-55. -/
def cImGui_ImplVulkan_DestroyFontsTexture (L : Backend σ ε) : Fn σ ε Unit :=
  L.ImGui_ImplVulkan_DestroyFontsTexture

/-- Source lines 57-60. -/
def cImGui_ImplVulkan_SetMinImageCount (L : Backend σ ε)
    (min_image_count : uint32_t) : Fn σ ε Unit :=
  L.ImGui_ImplVulkan_SetMinImageCount min_image_count

/-- Source lines 62-65. -/
def cImGui_ImplVulkan_AddTexture (L : Backend σ ε)
    (sampler : VkSampler) (image_view : VkImageView) (image_layout : VkImageLayout) :
    Fn σ ε VkDescriptorSet :=
  L.ImGui_ImplVulkan_AddTexture sampler image_view image_layout

/-- Source lines 67-70. -/
def cImGui_ImplVulkan_RemoveTexture (L : Backend σ ε)
    (descriptor_set : VkDescriptorSet) : Fn σ ε Unit :=
  L.ImGui_ImplVulkan_RemoveTexture descriptor_set

/-- Source lines 72-75.  The call names one argument; the second parameter of
the callee takes the default of its declaration. -/
def cImGui_ImplVulkan_LoadFunctions (L : Backend σ ε)
    (loader_func : LoaderFunc) : Fn σ ε Bool :=
  L.ImGui_ImplVulkan_LoadFunctions loader_func L.LoadFunctions_default_user_data

/-- Source lines 77-80. -/
def cImGui_ImplVulkan_LoadFunctionsEx (L : Backend σ ε)
    (loader_func : LoaderFunc) (user_data : Ptr .void) : Fn σ ε Bool :=
  L.ImGui_ImplVulkan_LoadFunctions loader_func user_data

/-- Source lines 82-85. -/
def cImGui_ImplVulkanH_CreateOrResizeWindow (L : Backend σ ε)
    (instance_ : VkInstance) (physical_device : VkPhysicalDevice) (device : VkDevice)
    (wd : Ptr .cimgui_ImGui_ImplVulkanH_Window) (queue_family : uint32_t)
    (allocator : Ptr .VkAllocationCallbacks) (w h : int) (min_image_count : uint32_t) :
    Fn σ ε Unit :=
  L.ImGui_ImplVulkanH_CreateOrResizeWindow instance_ physical_device device
    (reinterpret_cast .ImGui_ImplVulkanH_Window wd) queue_family allocator w h min_image_count

/-- Source lines 87-90. -/
def cImGui_ImplVulkanH_DestroyWindow (L : Backend σ ε)
    (instance_ : VkInstance) (device : VkDevice) (wd : Ptr .cimgui_ImGui_ImplVulkanH_Window)
    (allocator : Ptr .VkAllocationCallbacks) : Fn σ ε Unit :=
  L.ImGui_ImplVulkanH_DestroyWindow instance_ device
    (reinterpret_cast .ImGui_ImplVulkanH_Window wd) allocator

/-- Source lines 92-95. -/
def cImGui_ImplVulkanH_SelectSurfaceFormat (L : Backend σ ε)
    (physical_device : VkPhysicalDevice) (surface : VkSurfaceKHR)
    (request_formats : Ptr .VkFormat) (request_formats_count : int)
    (request_color_space : VkColorSpaceKHR) : Fn σ ε VkSurfaceFormatKHR :=
  L.ImGui_ImplVulkanH_SelectSurfaceFormat physical_device surface request_formats
    request_formats_count request_color_space

/-- Source lines 97-100. -/
def cImGui_ImplVulkanH_SelectPresentMode (L : Backend σ ε)
    (physical_device : VkPhysicalDevice) (surface : VkSurfaceKHR)
    (request_modes : Ptr .VkPresentModeKHR) (request_modes_count : int) :
    Fn σ ε VkPresentModeKHR :=
  L.ImGui_ImplVulkanH_SelectPresentMode physical_device surface request_modes
    request_modes_count

/-- Source lines 102-105. -/
def cImGui_ImplVulkanH_GetMinImageCountFromPresentMode (L : Backend σ ε)
    (present_mode : VkPresentModeKHR) : Fn σ ε int :=
  L.ImGui_ImplVulkanH_GetMinImageCountFromPresentMode present_mode

end cimgui

/-! ## Calls of the exported surface, uniformly -/

/-- A run-time C value, as it appears in a record of a call.  A pointer is
its address: the static pointee type is not part of the value. -/
inductive Val
  | void
  | bool (b : Bool)
  | int (i : Int)
  | uint32 (n : Nat)
  | handle (h : Nat)
  | enumerator (i : Int)
  | pointer (addr : Nat)
  | function (addr : Nat)
  | surface_format (format colorSpace : Int)
  deriving DecidableEq, Repr

/-- One call of one of the seventeen exported functions, with its arguments
in the order of the C signature. -/
inductive Export
  | cImGui_ImplVulkan_Init (info : Ptr .cimgui_ImGui_ImplVulkan_InitInfo)
  | cImGui_ImplVulkan_Shutdown
  | cImGui_ImplVulkan_NewFrame
  | cImGui_ImplVulkan_RenderDrawData (draw_data : Ptr .cimgui_ImDrawData)
      (command_buffer : VkCommandBuffer)
  | cImGui_ImplVulkan_RenderDrawDataEx (draw_data : Ptr .cimgui_ImDrawData)
      (command_buffer : VkCommandBuffer) (pipeline : VkPipeline)
  | cImGui_ImplVulkan_CreateFontsTexture
  | cImGui_ImplVulkan_DestroyFontsTexture
  | cImGui_ImplVulkan_SetMinImageCount (min_image_count : uint32_t)
  | cImGui_ImplVulkan_AddTexture (sampler : VkSampler) (image_view : VkImageView)
      (image_layout : VkImageLayout)
  | cImGui_ImplVulkan_RemoveTexture (descriptor_set : VkDescriptorSet)
  | cImGui_ImplVulkan_LoadFunctions (loader_func : LoaderFunc)
  | cImGui_ImplVulkan_LoadFunctionsEx (loader_func : LoaderFunc) (user_data : Ptr .void)
  | cImGui_ImplVulkanH_CreateOrResizeWindow (instance_ : VkInstance)
      (physical_device : VkPhysicalDevice) (device : VkDevice)
      (wd : Ptr .cimgui_ImGui_ImplVulkanH_Window) (queue_family : uint32_t)
      (allocator : Ptr .VkAllocationCallbacks) (w h : int) (min_image_count : uint32_t)
  | cImGui_ImplVulkanH_DestroyWindow (instance_ : VkInstance) (device : VkDevice)
      (wd : Ptr .cimgui_ImGui_ImplVulkanH_Window) (allocator : Ptr .VkAllocationCallbacks)
  | cImGui_ImplVulkanH_SelectSurfaceFormat (physical_device : VkPhysicalDevice)
      (surface : VkSurfaceKHR) (request_formats : Ptr .VkFormat)
      (request_formats_count : int) (request_color_space : VkColorSpaceKHR)
  | cImGui_ImplVulkanH_SelectPresentMode (physical_device : VkPhysicalDevice)
      (surface : VkSurfaceKHR) (request_modes : Ptr .VkPresentModeKHR)
      (request_modes_count : int)
  | cImGui_ImplVulkanH_GetMinImageCountFromPresentMode (present_mode : VkPresentModeKHR)
  deriving DecidableEq, Repr

/-- The linker symbol of the exported function that is called. -/
def Export.symbol : Export → String
  | .cImGui_ImplVulkan_Init _ => "cImGui_ImplVulkan_Init"
  | .cImGui_ImplVulkan_Shutdown => "cImGui_ImplVulkan_Shutdown"
  | .cImGui_ImplVulkan_NewFrame => "cImGui_ImplVulkan_NewFrame"
  | .cImGui_ImplVulkan_RenderDrawData _ _ => "cImGui_ImplVulkan_RenderDrawData"
  | .cImGui_ImplVulkan_RenderDrawDataEx _ _ _ => "cImGui_ImplVulkan_RenderDrawDataEx"
  | .cImGui_ImplVulkan_CreateFontsTexture => "cImGui_ImplVulkan_CreateFontsTexture"
  | .cImGui_ImplVulkan_DestroyFontsTexture => "cImGui_ImplVulkan_DestroyFontsTexture"
  | .cImGui_ImplVulkan_SetMinImageCount _ => "cImGui_ImplVulkan_SetMinImageCount"
  | .cImGui_ImplVulkan_AddTexture _ _ _ => "cImGui_ImplVulkan_AddTexture"
  | .cImGui_ImplVulkan_RemoveTexture _ => "cImGui_ImplVulkan_RemoveTexture"
  | .cImGui_ImplVulkan_LoadFunctions _ => "cImGui_ImplVulkan_LoadFunctions"
  | .cImGui_ImplVulkan_LoadFunctionsEx _ _ => "cImGui_ImplVulkan_LoadFunctionsEx"
  | .cImGui_ImplVulkanH_CreateOrResizeWindow _ _ _ _ _ _ _ _ _ =>
      "cImGui_ImplVulkanH_CreateOrResizeWindow"
  | .cImGui_ImplVulkanH_DestroyWindow _ _ _ _ => "cImGui_ImplVulkanH_DestroyWindow"
  | .cImGui_ImplVulkanH_SelectSurfaceFormat _ _ _ _ _ =>
      "cImGui_ImplVulkanH_SelectSurfaceFormat"
  | .cImGui_ImplVulkanH_SelectPresentMode _ _ _ _ => "cImGui_ImplVulkanH_SelectPresentMode"
  | .cImGui_ImplVulkanH_GetMinImageCountFromPresentMode _ =>
      "cImGui_ImplVulkanH_GetMinImageCountFromPresentMode"

/-- The argument values of the call, in the order of the C signature. -/
def Export.args : Export → List Val
  | .cImGui_ImplVulkan_Init info => [.pointer info.addr]
  | .cImGui_ImplVulkan_Shutdown => []
  | .cImGui_ImplVulkan_NewFrame => []
  | .cImGui_ImplVulkan_RenderDrawData draw_data command_buffer =>
      [.pointer draw_data.addr, .handle command_buffer]
  | .cImGui_ImplVulkan_RenderDrawDataEx draw_data command_buffer pipeline =>
      [.pointer draw_data.addr, .handle command_buffer, .handle pipeline]
  | .cImGui_ImplVulkan_CreateFontsTexture => []
  | .cImGui_ImplVulkan_DestroyFontsTexture => []
  | .cImGui_ImplVulkan_SetMinImageCount min_image_count => [.uint32 min_image_count]
  | .cImGui_ImplVulkan_AddTexture sampler image_view image_layout =>
      [.handle sampler, .handle image_view, .enumerator image_layout]
  | .cImGui_ImplVulkan_RemoveTexture descriptor_set => [.handle descriptor_set]
  | .cImGui_ImplVulkan_LoadFunctions loader_func => [.function loader_func.addr]
  | .cImGui_ImplVulkan_LoadFunctionsEx loader_func user_data =>
      [.function loader_func.addr, .pointer user_data.addr]
  | .cImGui_ImplVulkanH_CreateOrResizeWindow instance_ physical_device device wd queue_family
      allocator w h min_image_count =>
      [.handle instance_, .handle physical_device, .handle device, .pointer wd.addr,
        .uint32 queue_family, .pointer allocator.addr, .int w, .int h, .uint32 min_image_count]
  | .cImGui_ImplVulkanH_DestroyWindow instance_ device wd allocator =>
      [.handle instance_, .handle device, .pointer wd.addr, .pointer allocator.addr]
  | .cImGui_ImplVulkanH_SelectSurfaceFormat physical_device surface request_formats
      request_formats_count request_color_space =>
      [.handle physical_device, .handle surface, .pointer request_formats.addr,
        .int request_formats_count, .enumerator request_color_space]
  | .cImGui_ImplVulkanH_SelectPresentMode physical_device surface request_modes
      request_modes_count =>
      [.handle physical_device, .handle surface, .pointer request_modes.addr,
        .int request_modes_count]
  | .cImGui_ImplVulkanH_GetMinImageCountFromPresentMode present_mode =>
      [.enumerator present_mode]

/-- A typed call seen with its result as a `Val`; the state and an error are
passed through as they are. -/
def Fn.asVal {σ ε α : Type} (inj : α → Val) (f : Fn σ ε α) : Fn σ ε Val :=
  fun s => ((f s).1.map inj, (f s).2)

/-- What a C caller gets from a call of the exported surface: the call is
dispatched to the function of the file that carries the symbol. -/
def Export.run {σ ε : Type} (L : Backend σ ε) : Export → Fn σ ε Val
  | .cImGui_ImplVulkan_Init info =>
      (cimgui.cImGui_ImplVulkan_Init L info).asVal .bool
  | .cImGui_ImplVulkan_Shutdown =>
      (cimgui.cImGui_ImplVulkan_Shutdown L).asVal fun _ => .void
  | .cImGui_ImplVulkan_NewFrame =>
      (cimgui.cImGui_ImplVulkan_NewFrame L).asVal fun _ => .void
  | .cImGui_ImplVulkan_RenderDrawData draw_data command_buffer =>
      (cimgui.cImGui_ImplVulkan_RenderDrawData L draw_data command_buffer).asVal fun _ => .void
  | .cImGui_ImplVulkan_RenderDrawDataEx draw_data command_buffer pipeline =>
      (cimgui.cImGui_ImplVulkan_RenderDrawDataEx L draw_data command_buffer pipeline).asVal
        fun _ => .void
  | .cImGui_ImplVulkan_CreateFontsTexture =>
      (cimgui.cImGui_ImplVulkan_CreateFontsTexture L).asVal .bool
  | .cImGui_ImplVulkan_DestroyFontsTexture =>
      (cimgui.cImGui_ImplVulkan_DestroyFontsTexture L).asVal fun _ => .void
  | .cImGui_ImplVulkan_SetMinImageCount min_image_count =>
      (cimgui.cImGui_ImplVulkan_SetMinImageCount L min_image_count).asVal fun _ => .void
  | .cImGui_ImplVulkan_AddTexture sampler image_view image_layout =>
      (cimgui.cImGui_ImplVulkan_AddTexture L sampler image_view image_layout).asVal .handle
  | .cImGui_ImplVulkan_RemoveTexture descriptor_set =>
      (cimgui.cImGui_ImplVulkan_RemoveTexture L descriptor_set).asVal fun _ => .void
  | .cImGui_ImplVulkan_LoadFunctions loader_func =>
      (cimgui.cImGui_ImplVulkan_LoadFunctions L loader_func).asVal .bool
  | .cImGui_ImplVulkan_LoadFunctionsEx loader_func user_data =>
      (cimgui.cImGui_ImplVulkan_LoadFunctionsEx L loader_func user_data).asVal .bool
  | .cImGui_ImplVulkanH_CreateOrResizeWindow instance_ physical_device device wd queue_family
      allocator w h min_image_count =>
      (cimgui.cImGui_ImplVulkanH_CreateOrResizeWindow L instance_ physical_device device wd
        queue_family allocator w h min_image_count).asVal fun _ => .void
  | .cImGui_ImplVulkanH_DestroyWindow instance_ device wd allocator =>
      (cimgui.cImGui_ImplVulkanH_DestroyWindow L instance_ device wd allocator).asVal
        fun _ => .void
  | .cImGui_ImplVulkanH_SelectSurfaceFormat physical_device surface request_formats
      request_formats_count request_color_space =>
      (cimgui.cImGui_ImplVulkanH_SelectSurfaceFormat L physical_device surface request_formats
        request_formats_count request_color_space).asVal
        fun r => .surface_format r.format r.colorSpace
  | .cImGui_ImplVulkanH_SelectPresentMode physical_device surface request_modes
      request_modes_count =>
      (cimgui.cImGui_ImplVulkanH_SelectPresentMode L physical_device surface request_modes
        request_modes_count).asVal .enumerator
  | .cImGui_ImplVulkanH_GetMinImageCountFromPresentMode present_mode =>
      (cimgui.cImGui_ImplVulkanH_GetMinImageCountFromPresentMode L present_mode).asVal .int

/-! ## Calling the backend directly -/

/-- The comparison term of the specification, in its words: the underlying
C++ function called directly with the same arguments, a struct pointer being
handed over as a pointer of the C++ type to the same address.  A direct C++
call that leaves out a trailing parameter receives the default of the
declaration. -/
def underlying_direct {σ ε : Type} (L : Backend σ ε) : Export → Fn σ ε Val
  | .cImGui_ImplVulkan_Init info => fun s =>
      ((L.ImGui_ImplVulkan_Init ⟨info.addr⟩ s).1.map Val.bool,
        (L.ImGui_ImplVulkan_Init ⟨info.addr⟩ s).2)
  | .cImGui_ImplVulkan_Shutdown => fun s =>
      ((L.ImGui_ImplVulkan_Shutdown s).1.map fun _ => Val.void,
        (L.ImGui_ImplVulkan_Shutdown s).2)
  | .cImGui_ImplVulkan_NewFrame => fun s =>
      ((L.ImGui_ImplVulkan_NewFrame s).1.map fun _ => Val.void,
        (L.ImGui_ImplVulkan_NewFrame s).2)
  | .cImGui_ImplVulkan_RenderDrawData draw_data command_buffer => fun s =>
      ((L.ImGui_ImplVulkan_RenderDrawData ⟨draw_data.addr⟩ command_buffer
          L.RenderDrawData_default_pipeline s).1.map fun _ => Val.void,
        (L.ImGui_ImplVulkan_RenderDrawData ⟨draw_data.addr⟩ command_buffer
          L.RenderDrawData_default_pipeline s).2)
  | .cImGui_ImplVulkan_RenderDrawDataEx draw_data command_buffer pipeline => fun s =>
      ((L.ImGui_ImplVulkan_RenderDrawData ⟨draw_data.addr⟩ command_buffer pipeline s).1.map
          fun _ => Val.void,
        (L.ImGui_ImplVulkan_RenderDrawData ⟨draw_data.addr⟩ command_buffer pipeline s).2)
  | .cImGui_ImplVulkan_CreateFontsTexture => fun s =>
      ((L.ImGui_ImplVulkan_CreateFontsTexture s).1.map Val.bool,
        (L.ImGui_ImplVulkan_CreateFontsTexture s).2)
  | .cImGui_ImplVulkan_DestroyFontsTexture => fun s =>
      ((L.ImGui_ImplVulkan_DestroyFontsTexture s).1.map fun _ => Val.void,
        (L.ImGui_ImplVulkan_DestroyFontsTexture s).2)
  | .cImGui_ImplVulkan_SetMinImageCount min_image_count => fun s =>
      ((L.ImGui_ImplVulkan_SetMinImageCount min_image_count s).1.map fun _ => Val.void,
        (L.ImGui_ImplVulkan_SetMinImageCount min_image_count s).2)
  | .cImGui_ImplVulkan_AddTexture sampler image_view image_layout => fun s =>
      ((L.ImGui_ImplVulkan_AddTexture sampler image_view image_layout s).1.map Val.handle,
        (L.ImGui_ImplVulkan_AddTexture sampler image_view image_layout s).2)
  | .cImGui_ImplVulkan_RemoveTexture descriptor_set => fun s =>
      ((L.ImGui_ImplVulkan_RemoveTexture descriptor_set s).1.map fun _ => Val.void,
        (L.ImGui_ImplVulkan_RemoveTexture descriptor_set s).2)
  | .cImGui_ImplVulkan_LoadFunctions loader_func => fun s =>
      ((L.ImGui_ImplVulkan_LoadFunctions loader_func
          L.LoadFunctions_default_user_data s).1.map Val.bool,
        (L.ImGui_ImplVulkan_LoadFunctions loader_func L.LoadFunctions_default_user_data s).2)
  | .cImGui_ImplVulkan_LoadFunctionsEx loader_func user_data => fun s =>
      ((L.ImGui_ImplVulkan_LoadFunctions loader_func user_data s).1.map Val.bool,
        (L.ImGui_ImplVulkan_LoadFunctions loader_func user_data s).2)
  | .cImGui_ImplVulkanH_CreateOrResizeWindow instance_ physical_device device wd queue_family
      allocator w h min_image_count => fun s =>
      ((L.ImGui_ImplVulkanH_CreateOrResizeWindow instance_ physical_device device ⟨wd.addr⟩
          queue_family allocator w h min_image_count s).1.map fun _ => Val.void,
        (L.ImGui_ImplVulkanH_CreateOrResizeWindow instance_ physical_device device ⟨wd.addr⟩
          queue_family allocator w h min_image_count s).2)
  | .cImGui_ImplVulkanH_DestroyWindow instance_ device wd allocator => fun s =>
      ((L.ImGui_ImplVulkanH_DestroyWindow instance_ device ⟨wd.addr⟩ allocator s).1.map
          fun _ => Val.void,
        (L.ImGui_ImplVulkanH_DestroyWindow instance_ device ⟨wd.addr⟩ allocator s).2)
  | .cImGui_ImplVulkanH_SelectSurfaceFormat physical_device surface request_formats
      request_formats_count request_color_space => fun s =>
      ((L.ImGui_ImplVulkanH_SelectSurfaceFormat physical_device surface request_formats
          request_formats_count request_color_space s).1.map
          fun r => Val.surface_format r.format r.colorSpace,
        (L.ImGui_ImplVulkanH_SelectSurfaceFormat physical_device surface request_formats
          request_formats_count request_color_space s).2)
  | .cImGui_ImplVulkanH_SelectPresentMode physical_device surface request_modes
      request_modes_count => fun s =>
      ((L.ImGui_ImplVulkanH_SelectPresentMode physical_device surface request_modes
          request_modes_count s).1.map Val.enumerator,
        (L.ImGui_ImplVulkanH_SelectPresentMode physical_device surface request_modes
          request_modes_count s).2)
  | .cImGui_ImplVulkanH_GetMinImageCountFromPresentMode present_mode => fun s =>
      ((L.ImGui_ImplVulkanH_GetMinImageCountFromPresentMode present_mode s).1.map Val.int,
        (L.ImGui_ImplVulkanH_GetMinImageCountFromPresentMode present_mode s).2)

/-! ## A backend that records the calls it receives -/

/-- One received call: the name of the entry point and the argument values
it was given, in the order of its parameters. -/
structure CallRecord where
  callee : String
  args : List Val
  deriving DecidableEq, Repr

/-- An entry point that appends a record of the call to the trace and then
behaves as `f`. -/
def logged {σ ε α : Type} (callee : String) (args : List Val) (f : Fn σ ε α) :
    Fn (List CallRecord × σ) ε α :=
  fun st => ((f st.2).1, (st.1 ++ [⟨callee, args⟩], (f st.2).2))

/-- The backend `L` instrumented so that every entry point records the call
it receives, under its own name and with the arguments it is given. -/
def traced {σ ε : Type} (L : Backend σ ε) : Backend (List CallRecord × σ) ε where
  ImGui_ImplVulkan_Init info :=
    logged "ImGui_ImplVulkan_Init" [.pointer info.addr] (L.ImGui_ImplVulkan_Init info)
  ImGui_ImplVulkan_Shutdown := logged "ImGui_ImplVulkan_Shutdown" [] L.ImGui_ImplVulkan_Shutdown
  ImGui_ImplVulkan_NewFrame := logged "ImGui_ImplVulkan_NewFrame" [] L.ImGui_ImplVulkan_NewFrame
  ImGui_ImplVulkan_RenderDrawData draw_data command_buffer pipeline :=
    logged "ImGui_ImplVulkan_RenderDrawData"
      [.pointer draw_data.addr, .handle command_buffer, .handle pipeline]
      (L.ImGui_ImplVulkan_RenderDrawData draw_data command_buffer pipeline)
  RenderDrawData_default_pipeline := L.RenderDrawData_default_pipeline
  ImGui_ImplVulkan_CreateFontsTexture :=
    logged "ImGui_ImplVulkan_CreateFontsTexture" [] L.ImGui_ImplVulkan_CreateFontsTexture
  ImGui_ImplVulkan_DestroyFontsTexture :=
    logged "ImGui_ImplVulkan_DestroyFontsTexture" [] L.ImGui_ImplVulkan_DestroyFontsTexture
  ImGui_ImplVulkan_SetMinImageCount min_image_count :=
    logged "ImGui_ImplVulkan_SetMinImageCount" [.uint32 min_image_count]
      (L.ImGui_ImplVulkan_SetMinImageCount min_image_count)
  ImGui_ImplVulkan_AddTexture sampler image_view image_layout :=
    logged "ImGui_ImplVulkan_AddTexture"
      [.handle sampler, .handle image_view, .enumerator image_layout]
      (L.ImGui_ImplVulkan_AddTexture sampler image_view image_layout)
  ImGui_ImplVulkan_RemoveTexture descriptor_set :=
    logged "ImGui_ImplVulkan_RemoveTexture" [.handle descriptor_set]
      (L.ImGui_ImplVulkan_RemoveTexture descriptor_set)
  ImGui_ImplVulkan_LoadFunctions loader_func user_data :=
    logged "ImGui_ImplVulkan_LoadFunctions" [.function loader_func.addr, .pointer user_data.addr]
      (L.ImGui_ImplVulkan_LoadFunctions loader_func user_data)
  LoadFunctions_default_user_data := L.LoadFunctions_default_user_data
  ImGui_ImplVulkanH_CreateOrResizeWindow instance_ physical_device device wd queue_family
      allocator w h min_image_count :=
    logged "ImGui_ImplVulkanH_CreateOrResizeWindow"
      [.handle instance_, .handle physical_device, .handle device, .pointer wd.addr,
        .uint32 queue_family, .pointer allocator.addr, .int w, .int h, .uint32 min_image_count]
      (L.ImGui_ImplVulkanH_CreateOrResizeWindow instance_ physical_device device wd queue_family
        allocator w h min_image_count)
  ImGui_ImplVulkanH_DestroyWindow instance_ device wd allocator :=
    logged "ImGui_ImplVulkanH_DestroyWindow"
      [.handle instance_, .handle device, .pointer wd.addr, .pointer allocator.addr]
      (L.ImGui_ImplVulkanH_DestroyWindow instance_ device wd allocator)
  ImGui_ImplVulkanH_SelectSurfaceFormat physical_device surface request_formats
      request_formats_count request_color_space :=
    logged "ImGui_ImplVulkanH_SelectSurfaceFormat"
      [.handle physical_device, .handle surface, .pointer request_formats.addr,
        .int request_formats_count, .enumerator request_color_space]
      (L.ImGui_ImplVulkanH_SelectSurfaceFormat physical_device surface request_formats
        request_formats_count request_color_space)
  ImGui_ImplVulkanH_SelectPresentMode physical_device surface request_modes
      request_modes_count :=
    logged "ImGui_ImplVulkanH_SelectPresentMode"
      [.handle physical_device, .handle surface, .pointer request_modes.addr,
        .int request_modes_count]
      (L.ImGui_ImplVulkanH_SelectPresentMode physical_device surface request_modes
        request_modes_count)
  ImGui_ImplVulkanH_GetMinImageCountFromPresentMode present_mode :=
    logged "ImGui_ImplVulkanH_GetMinImageCountFromPresentMode" [.enumerator present_mode]
      (L.ImGui_ImplVulkanH_GetMinImageCountFromPresentMode present_mode)

/-- The default arguments that the callee receives in addition to the
arguments of the exported function: the trailing parameter that the call in
the body leaves out. -/
def Export.defaulted {σ ε : Type} (L : Backend σ ε) : Export → List Val
  | .cImGui_ImplVulkan_RenderDrawData _ _ => [.handle L.RenderDrawData_default_pipeline]
  | .cImGui_ImplVulkan_LoadFunctions _ => [.pointer L.LoadFunctions_default_user_data.addr]
  | _ => []

/-! ## Memory, and a concrete backend to evaluate against -/

/-- Memory as an explicit map from address to stored value. -/
abbrev Memory := Nat → Int

/-- The memory after writing `v` at address `a`. -/
def store (m : Memory) (a : Nat) (v : Int) : Memory :=
  fun x => if x = a then v else m x

/-- A concrete backend for evaluating the definitions.  Its state is a memory
and a frame counter; an error is a string.  `Init` writes `1` through `info`
and raises an error when frames have been counted already; `RenderDrawData`
writes the pipeline through `draw_data`; the window helpers write through
`wd`; `NewFrame` counts, `Shutdown` resets the counter, the font texture
exists from the first frame on, and loading succeeds when `user_data` is not
null. -/
def demo : Backend (Memory × Nat) String where
  ImGui_ImplVulkan_Init info := fun st =>
    (if st.2 = 0 then .ok true else .error "frames in flight",
      (store st.1 info.addr 1, st.2))
  ImGui_ImplVulkan_Shutdown := fun st => (.ok (), (st.1, 0))
  ImGui_ImplVulkan_NewFrame := fun st => (.ok (), (st.1, st.2 + 1))
  ImGui_ImplVulkan_RenderDrawData draw_data _ pipeline := fun st =>
    (.ok (), (store st.1 draw_data.addr pipeline, st.2))
  RenderDrawData_default_pipeline := 0
  ImGui_ImplVulkan_CreateFontsTexture := fun st => (.ok (decide (0 < st.2)), st)
  ImGui_ImplVulkan_DestroyFontsTexture := fun st => (.ok (), st)
  ImGui_ImplVulkan_SetMinImageCount _ := fun st => (.ok (), st)
  ImGui_ImplVulkan_AddTexture sampler image_view _ := fun st =>
    (.ok (sampler + image_view), st)
  ImGui_ImplVulkan_RemoveTexture _ := fun st => (.ok (), st)
  ImGui_ImplVulkan_LoadFunctions _ user_data := fun st =>
    (.ok (decide (user_data.addr ≠ 0)), st)
  LoadFunctions_default_user_data := Ptr.null .void
  ImGui_ImplVulkanH_CreateOrResizeWindow _ _ _ wd _ _ w h _ := fun st =>
    (.ok (), (store (store st.1 wd.addr w) (wd.addr + 1) h, st.2))
  ImGui_ImplVulkanH_DestroyWindow _ _ wd _ := fun st =>
    (.ok (), (store st.1 wd.addr 0, st.2))
  ImGui_ImplVulkanH_SelectSurfaceFormat _ _ _ request_formats_count request_color_space :=
    fun st => (.ok ⟨request_formats_count, request_color_space⟩, st)
  ImGui_ImplVulkanH_SelectPresentMode _ _ _ request_modes_count := fun st =>
    (.ok request_modes_count, st)
  ImGui_ImplVulkanH_GetMinImageCountFromPresentMode present_mode := fun st =>
    (.ok (present_mode + 2), st)

/-- The all-zero memory. -/
def zero_memory : Memory := fun _ => 0

/-- The names of the entry points that a call of the exported surface
reaches, in the order in which the instrumented backend receives them. -/
def Export.callees {σ ε : Type} (L : Backend σ ε) (x : Export) (s : σ) : List String :=
  (x.run (traced L) ([], s)).2.1.map CallRecord.callee

/-! ## The function bodies as program text

Whether the layer keeps state of its own is a question about what the bodies
may touch, so here the bodies are data: each is one statement over a small
statement language in which a body could also read and write variables of the
translation unit.  The evaluator runs a body in a process state that holds
those variables next to the state of the wrapped library. -/

/-- The entry points of the wrapped backend that a body can name. -/
inductive Entry
  | ImGui_ImplVulkan_Init
  | ImGui_ImplVulkan_Shutdown
  | ImGui_ImplVulkan_NewFrame
  | ImGui_ImplVulkan_RenderDrawData
  | ImGui_ImplVulkan_CreateFontsTexture
  | ImGui_ImplVulkan_DestroyFontsTexture
  | ImGui_ImplVulkan_SetMinImageCount
  | ImGui_ImplVulkan_AddTexture
  | ImGui_ImplVulkan_RemoveTexture
  | ImGui_ImplVulkan_LoadFunctions
  | ImGui_ImplVulkanH_CreateOrResizeWindow
  | ImGui_ImplVulkanH_DestroyWindow
  | ImGui_ImplVulkanH_SelectSurfaceFormat
  | ImGui_ImplVulkanH_SelectPresentMode
  | ImGui_ImplVulkanH_GetMinImageCountFromPresentMode
  deriving DecidableEq, Repr

/-- An argument expression of a call: a parameter of the enclosing function
(by position), a `reinterpret_cast` to a pointer type, or a variable with
static storage that the translation unit would own. -/
inductive Expr
  | param (i : Nat)
  | reinterpret_cast (T : CType) (e : Expr)
  | static_var (name : String)
  deriving DecidableEq, Repr

/-- A function body: `return f(args);`, or `f(args);` in a function returning
`void`, possibly after assignments `name = e;` to variables with static
storage. -/
inductive Stmt
  | return_call (callee : Entry) (args : List Expr)
  | call (callee : Entry) (args : List Expr)
  | assign_static (name : String) (e : Expr) (rest : Stmt)
  deriving Repr

/-- The state of the process as a body can see it: the variables with static
storage of the translation unit, and the state of the wrapped library. -/
structure Process (σ : Type) where
  statics : String → Val
  lib : σ

/-- The value of an argument expression.  A cast keeps the address of the
pointer and applies to pointers only. -/
def Expr.eval (params : List Val) (statics : String → Val) : Expr → Option Val
  | .param i => params[i]?
  | .reinterpret_cast _ e =>
      match e.eval params statics with
      | some (.pointer a) => some (.pointer a)
      | _ => none
  | .static_var name => some (statics name)

/-- The values of the argument expressions of a call, left to right. -/
def eval_args (params : List Val) (statics : String → Val) : List Expr → Option (List Val)
  | [] => some []
  | e :: rest =>
      match e.eval params statics, eval_args params statics rest with
      | some v, some vs => some (v :: vs)
      | _, _ => none

/-- The call `f(values)` of an entry point of the backend, resolved against
the declarations of the header: the values must fit the parameters, and a
call that leaves out the defaulted last parameter of
`ImGui_ImplVulkan_RenderDrawData` or `ImGui_ImplVulkan_LoadFunctions`
receives the default. -/
def Backend.call {σ ε : Type} (L : Backend σ ε) : Entry → List Val → Option (Fn σ ε Val)
  | .ImGui_ImplVulkan_Init, [.pointer info] =>
      some ((L.ImGui_ImplVulkan_Init ⟨info⟩).asVal .bool)
  | .ImGui_ImplVulkan_Shutdown, [] =>
      some (L.ImGui_ImplVulkan_Shutdown.asVal fun _ => .void)
  | .ImGui_ImplVulkan_NewFrame, [] =>
      some (L.ImGui_ImplVulkan_NewFrame.asVal fun _ => .void)
  | .ImGui_ImplVulkan_RenderDrawData, [.pointer draw_data, .handle command_buffer] =>
      some ((L.ImGui_ImplVulkan_RenderDrawData ⟨draw_data⟩ command_buffer
        L.RenderDrawData_default_pipeline).asVal fun _ => .void)
  | .ImGui_ImplVulkan_RenderDrawData,
      [.pointer draw_data, .handle command_buffer, .handle pipeline] =>
      some ((L.ImGui_ImplVulkan_RenderDrawData ⟨draw_data⟩ command_buffer pipeline).asVal
        fun _ => .void)
  | .ImGui_ImplVulkan_CreateFontsTexture, [] =>
      some (L.ImGui_ImplVulkan_CreateFontsTexture.asVal .bool)
  | .ImGui_ImplVulkan_DestroyFontsTexture, [] =>
      some (L.ImGui_ImplVulkan_DestroyFontsTexture.asVal fun _ => .void)
  | .ImGui_ImplVulkan_SetMinImageCount, [.uint32 min_image_count] =>
      some ((L.ImGui_ImplVulkan_SetMinImageCount min_image_count).asVal fun _ => .void)
  | .ImGui_ImplVulkan_AddTexture, [.handle sampler, .handle image_view, .enumerator layout] =>
      some ((L.ImGui_ImplVulkan_AddTexture sampler image_view layout).asVal .handle)
  | .ImGui_ImplVulkan_RemoveTexture, [.handle descriptor_set] =>
      some ((L.ImGui_ImplVulkan_RemoveTexture descriptor_set).asVal fun _ => .void)
  | .ImGui_ImplVulkan_LoadFunctions, [.function loader_func] =>
      some ((L.ImGui_ImplVulkan_LoadFunctions ⟨loader_func⟩
        L.LoadFunctions_default_user_data).asVal .bool)
  | .ImGui_ImplVulkan_LoadFunctions, [.function loader_func, .pointer user_data] =>
      some ((L.ImGui_ImplVulkan_LoadFunctions ⟨loader_func⟩ ⟨user_data⟩).asVal .bool)
  | .ImGui_ImplVulkanH_CreateOrResizeWindow,
      [.handle instance_, .handle physical_device, .handle device, .pointer wd,
        .uint32 queue_family, .pointer allocator, .int w, .int h, .uint32 min_image_count] =>
      some ((L.ImGui_ImplVulkanH_CreateOrResizeWindow instance_ physical_device device ⟨wd⟩
        queue_family ⟨allocator⟩ w h min_image_count).asVal fun _ => .void)
  | .ImGui_ImplVulkanH_DestroyWindow,
      [.handle instance_, .handle device, .pointer wd, .pointer allocator] =>
      some ((L.ImGui_ImplVulkanH_DestroyWindow instance_ device ⟨wd⟩ ⟨allocator⟩).asVal
        fun _ => .void)
  | .ImGui_ImplVulkanH_SelectSurfaceFormat,
      [.handle physical_device, .handle surface, .pointer request_formats,
        .int request_formats_count, .enumerator request_color_space] =>
      some ((L.ImGui_ImplVulkanH_SelectSurfaceFormat physical_device surface
        ⟨request_formats⟩ request_formats_count request_color_space).asVal
        fun r => .surface_format r.format r.colorSpace)
  | .ImGui_ImplVulkanH_SelectPresentMode,
      [.handle physical_device, .handle surface, .pointer request_modes,
        .int request_modes_count] =>
      some ((L.ImGui_ImplVulkanH_SelectPresentMode physical_device surface ⟨request_modes⟩
        request_modes_count).asVal .enumerator)
  | .ImGui_ImplVulkanH_GetMinImageCountFromPresentMode, [.enumerator present_mode] =>
      some ((L.ImGui_ImplVulkanH_GetMinImageCountFromPresentMode present_mode).asVal .int)
  | _, _ => none

/-- Running a body on the parameter values `params`.  A call of the backend
acts on the library state and cannot reach the variables of the translation
unit; an assignment changes one of those variables.  The outcome is `none`
only for text that would not compile (an unknown parameter, arguments that do
not fit the callee). -/
def Stmt.exec {σ ε : Type} (L : Backend σ ε) (params : List Val) :
    Stmt → Process σ → Option (Except ε Val × Process σ)
  | .return_call callee args, p =>
      match eval_args params p.statics args with
      | some vs =>
          match L.call callee vs with
          | some f => some ((f p.lib).1, ⟨p.statics, (f p.lib).2⟩)
          | none => none
      | none => none
  | .call callee args, p =>
      match eval_args params p.statics args with
      | some vs =>
          match L.call callee vs with
          | some f => some ((f p.lib).1.map fun _ => Val.void, ⟨p.statics, (f p.lib).2⟩)
          | none => none
      | none => none
  | .assign_static name e rest, p =>
      match e.eval params p.statics with
      | some v => rest.exec L params ⟨fun n => if n = name then v else p.statics n, p.lib⟩
      | none => none

/-- The body of each exported function, as written in the file (source lines
22-105); parameters are numbered from `0` in the order of the signature. -/
def Export.body : Export → Stmt
  | .cImGui_ImplVulkan_Init _ =>
      .return_call .ImGui_ImplVulkan_Init
        [.reinterpret_cast .ImGui_ImplVulkan_InitInfo (.param 0)]
  | .cImGui_ImplVulkan_Shutdown => .call .ImGui_ImplVulkan_Shutdown []
  | .cImGui_ImplVulkan_NewFrame => .call .ImGui_ImplVulkan_NewFrame []
  | .cImGui_ImplVulkan_RenderDrawData _ _ =>
      .call .ImGui_ImplVulkan_RenderDrawData
        [.reinterpret_cast .ImDrawData (.param 0), .param 1]
  | .cImGui_ImplVulkan_RenderDrawDataEx _ _ _ =>
      .call .ImGui_ImplVulkan_RenderDrawData
        [.reinterpret_cast .ImDrawData (.param 0), .param 1, .param 2]
  | .cImGui_ImplVulkan_CreateFontsTexture => .return_call .ImGui_ImplVulkan_CreateFontsTexture []
  | .cImGui_ImplVulkan_DestroyFontsTexture => .call .ImGui_ImplVulkan_DestroyFontsTexture []
  | .cImGui_ImplVulkan_SetMinImageCount _ => .call .ImGui_ImplVulkan_SetMinImageCount [.param 0]
  | .cImGui_ImplVulkan_AddTexture _ _ _ =>
      .return_call .ImGui_ImplVulkan_AddTexture [.param 0, .param 1, .param 2]
  | .cImGui_ImplVulkan_RemoveTexture _ => .call .ImGui_ImplVulkan_RemoveTexture [.param 0]
  | .cImGui_ImplVulkan_LoadFunctions _ => .return_call .ImGui_ImplVulkan_LoadFunctions [.param 0]
  | .cImGui_ImplVulkan_LoadFunctionsEx _ _ =>
      .return_call .ImGui_ImplVulkan_LoadFunctions [.param 0, .param 1]
  | .cImGui_ImplVulkanH_CreateOrResizeWindow _ _ _ _ _ _ _ _ _ =>
      .call .ImGui_ImplVulkanH_CreateOrResizeWindow
        [.param 0, .param 1, .param 2, .reinterpret_cast .ImGui_ImplVulkanH_Window (.param 3),
          .param 4, .param 5, .param 6, .param 7, .param 8]
  | .cImGui_ImplVulkanH_DestroyWindow _ _ _ _ =>
      .call .ImGui_ImplVulkanH_DestroyWindow
        [.param 0, .param 1, .reinterpret_cast .ImGui_ImplVulkanH_Window (.param 2), .param 3]
  | .cImGui_ImplVulkanH_SelectSurfaceFormat _ _ _ _ _ =>
      .return_call .ImGui_ImplVulkanH_SelectSurfaceFormat
        [.param 0, .param 1, .param 2, .param 3, .param 4]
  | .cImGui_ImplVulkanH_SelectPresentMode _ _ _ _ =>
      .return_call .ImGui_ImplVulkanH_SelectPresentMode [.param 0, .param 1, .param 2, .param 3]
  | .cImGui_ImplVulkanH_GetMinImageCountFromPresentMode _ =>
      .return_call .ImGui_ImplVulkanH_GetMinImageCountFromPresentMode [.param 0]

/-- A call of the exported surface in a process: the body of the function is
run on the argument values of the call. -/
def Export.exec {σ ε : Type} (L : Backend σ ε) (x : Export) :
    Process σ → Option (Except ε Val × Process σ) :=
  x.body.exec L x.args

/-- The process after a sequence of calls of the exported surface, made one
after the other (returned values and errors are the caller's to look at; the
process carries on). -/
def exec_all {σ ε : Type} (L : Backend σ ε) : List Export → Process σ → Process σ
  | [], p => p
  | x :: rest, p =>
      match x.exec L p with
      | some r => exec_all L rest r.2
      | none => p

/-! ## Properties -/

/-- Every exported function yields what the direct call of the backend
yields: same result or error, same state at exit. -/
theorem run_eq_direct {σ ε : Type} (L : Backend σ ε) (x : Export) :
    x.run L = underlying_direct L x := by
  cases x <;> rfl

/-- Discarding the value of a call that returns `void` changes nothing. -/
theorem map_void_map_void {ε α : Type} (r : Except ε α) :
    (r.map fun _ => Val.void).map (fun _ => Val.void) = r.map fun _ => Val.void := by
  cases r <;> rfl

/-- Running the body of an exported function in a process always completes;
it yields what the function of the shallow embedding yields on the library
state of the process, and leaves the variables of the translation unit as
they were. -/
theorem exec_eq_run {σ ε : Type} (L : Backend σ ε) (x : Export) (p : Process σ) :
    x.exec L p = some ((x.run L p.lib).1, ⟨p.statics, (x.run L p.lib).2⟩) := by
  cases x <;> first
    | rfl
    | exact congrArg (fun r => some (r, (⟨p.statics, _⟩ : Process σ))) (map_void_map_void _)

/-- No history of exported calls changes a variable of the translation unit. -/
theorem exec_all_statics {σ ε : Type} (L : Backend σ ε) (calls : List Export)
    (p : Process σ) : (exec_all L calls p).statics = p.statics := by
  induction calls generalizing p with
  | nil => rfl
  | cons x rest ih => simp only [exec_all, exec_eq_run, ih]

/-- A call through the instrumented backend appends exactly one record to the
trace, holding the arguments of the exported function followed by the
defaults that the callee receives. -/
theorem traced_run_trace {σ ε : Type} (L : Backend σ ε) (x : Export)
    (t : List CallRecord) (s : σ) :
    ∃ callee : String,
      (x.run (traced L) (t, s)).2.1 = t ++ [⟨callee, x.args ++ x.defaulted L⟩] := by
  cases x <;> exact ⟨_, rfl⟩

/-- C1: for each of the seventeen exported functions, for every argument
tuple and every state of the wrapped library, the call yields the same
return value (or error) and the same resulting library state as the direct
call of the underlying C++ function with the same, type-reinterpreted,
arguments; the underlying functions are arbitrary state transformers. -/
theorem C1_export_equals_direct_call {σ ε : Type} (L : Backend σ ε) (x : Export) (s : σ) :
    (x.run L s).1 = (underlying_direct L x s).1 ∧
      (x.run L s).2 = (underlying_direct L x s).2 := by
  rw [run_eq_direct]
  exact ⟨rfl, rfl⟩

/-- C2: each of the four boolean-returning exported functions returns a
given boolean exactly when the underlying function returns it (so true if
and only if true, and a failure is never turned into success nor invented),
raises a given error exactly when the underlying function raises it, and
leaves the state the underlying function leaves. -/
theorem C2_bool_result_forwarded {σ ε : Type} (L : Backend σ ε) (s : σ) (b : Bool) (e : ε)
    (info : Ptr .cimgui_ImGui_ImplVulkan_InitInfo) (loader_func : LoaderFunc)
    (user_data : Ptr .void) :
    (((cimgui.cImGui_ImplVulkan_Init L info s).1 = .ok b ↔
          (L.ImGui_ImplVulkan_Init ⟨info.addr⟩ s).1 = .ok b) ∧
        ((cimgui.cImGui_ImplVulkan_Init L info s).1 = .error e ↔
          (L.ImGui_ImplVulkan_Init ⟨info.addr⟩ s).1 = .error e) ∧
        (cimgui.cImGui_ImplVulkan_Init L info s).2 =
          (L.ImGui_ImplVulkan_Init ⟨info.addr⟩ s).2) ∧
      (((cimgui.cImGui_ImplVulkan_CreateFontsTexture L s).1 = .ok b ↔
          (L.ImGui_ImplVulkan_CreateFontsTexture s).1 = .ok b) ∧
        ((cimgui.cImGui_ImplVulkan_CreateFontsTexture L s).1 = .error e ↔
          (L.ImGui_ImplVulkan_CreateFontsTexture s).1 = .error e) ∧
        (cimgui.cImGui_ImplVulkan_CreateFontsTexture L s).2 =
          (L.ImGui_ImplVulkan_CreateFontsTexture s).2) ∧
      (((cimgui.cImGui_ImplVulkan_LoadFunctions L loader_func s).1 = .ok b ↔
          (L.ImGui_ImplVulkan_LoadFunctions loader_func
            L.LoadFunctions_default_user_data s).1 = .ok b) ∧
        ((cimgui.cImGui_ImplVulkan_LoadFunctions L loader_func s).1 = .error e ↔
          (L.ImGui_ImplVulkan_LoadFunctions loader_func
            L.LoadFunctions_default_user_data s).1 = .error e) ∧
        (cimgui.cImGui_ImplVulkan_LoadFunctions L loader_func s).2 =
          (L.ImGui_ImplVulkan_LoadFunctions loader_func
            L.LoadFunctions_default_user_data s).2) ∧
      (((cimgui.cImGui_ImplVulkan_LoadFunctionsEx L loader_func user_data s).1 = .ok b ↔
          (L.ImGui_ImplVulkan_LoadFunctions loader_func user_data s).1 = .ok b) ∧
        ((cimgui.cImGui_ImplVulkan_LoadFunctionsEx L loader_func user_data s).1 = .error e ↔
          (L.ImGui_ImplVulkan_LoadFunctions loader_func user_data s).1 = .error e) ∧
        (cimgui.cImGui_ImplVulkan_LoadFunctionsEx L loader_func user_data s).2 =
          (L.ImGui_ImplVulkan_LoadFunctions loader_func user_data s).2) :=
  ⟨⟨Iff.rfl, Iff.rfl, rfl⟩, ⟨Iff.rfl, Iff.rfl, rfl⟩, ⟨Iff.rfl, Iff.rfl, rfl⟩,
    ⟨Iff.rfl, Iff.rfl, rfl⟩⟩

/-- C3 as stated fails: the record of a call of
`cImGui_ImplVulkan_RenderDrawData` holds three arguments, the two of the
exported function and the default pipeline, and the record of a call of
`cImGui_ImplVulkan_LoadFunctions` holds two, the one of the exported function
and the default `user_data`; so the recorded arguments are not in every case
the arguments of the exported function. -/
theorem C3_recorded_arguments_not_always_the_wrappers :
    ((Export.cImGui_ImplVulkan_RenderDrawData ⟨7⟩ 3).run (traced demo)
          ([], (zero_memory, 0))).2.1 =
        [⟨"ImGui_ImplVulkan_RenderDrawData", [.pointer 7, .handle 3, .handle 0]⟩] ∧
      (Export.cImGui_ImplVulkan_RenderDrawData ⟨7⟩ 3).args = [.pointer 7, .handle 3] ∧
      ((Export.cImGui_ImplVulkan_LoadFunctions ⟨40⟩).run (traced demo)
          ([], (zero_memory, 0))).2.1 =
        [⟨"ImGui_ImplVulkan_LoadFunctions", [.function 40, .pointer 0]⟩] ∧
      (Export.cImGui_ImplVulkan_LoadFunctions ⟨40⟩).args = [.function 40] ∧
      ¬ ∀ x : Export, ∀ r ∈ (x.run (traced demo) ([], (zero_memory, 0))).2.1,
          r.args = x.args := by
  refine ⟨by decide, by decide, by decide, by decide, fun h => ?_⟩
  exact absurd (h (.cImGui_ImplVulkan_RenderDrawData ⟨7⟩ 3)
    ⟨"ImGui_ImplVulkan_RenderDrawData", [.pointer 7, .handle 3, .handle 0]⟩ (by decide))
    (by decide)

/-- C3, amended: with the backend recording the calls it receives, every call
of an exported function, whatever its arguments (null pointers, zero or
negative counts included) and whatever the backend does, appends exactly one
record to the trace; the recorded arguments begin with the arguments of the
exported function, same values in the same positions; they are exactly those
arguments for every exported function other than
`cImGui_ImplVulkan_RenderDrawData` and `cImGui_ImplVulkan_LoadFunctions`, for
which the record holds behind them the default of the parameter that the body
leaves out.  In particular `cImGui_ImplVulkanH_CreateOrResizeWindow` passes
(instance, physical_device, device, wd, queue_family, allocator, w, h,
min_image_count) and `cImGui_ImplVulkanH_DestroyWindow` passes (instance,
device, wd, allocator), in that order. -/
theorem C3_exactly_one_call_same_arguments {σ ε : Type} (L : Backend σ ε) (x : Export)
    (t : List CallRecord) (s : σ)
    (instance_ : VkInstance) (physical_device : VkPhysicalDevice) (device : VkDevice)
    (wd : Ptr .cimgui_ImGui_ImplVulkanH_Window) (queue_family : uint32_t)
    (allocator : Ptr .VkAllocationCallbacks) (w h : int) (min_image_count : uint32_t) :
    (∃ r : CallRecord,
        (x.run (traced L) (t, s)).2.1 = t ++ [r] ∧
          r.args.take x.args.length = x.args ∧
          r.args = x.args ++ x.defaulted L ∧
          (r.args = x.args ∨
            (x.symbol = "cImGui_ImplVulkan_RenderDrawData" ∧
              r.args = x.args ++ [.handle L.RenderDrawData_default_pipeline]) ∨
            (x.symbol = "cImGui_ImplVulkan_LoadFunctions" ∧
              r.args = x.args ++ [.pointer L.LoadFunctions_default_user_data.addr]))) ∧
      (cimgui.cImGui_ImplVulkanH_CreateOrResizeWindow (traced L) instance_ physical_device
          device wd queue_family allocator w h min_image_count (t, s)).2.1 =
        t ++ [⟨"ImGui_ImplVulkanH_CreateOrResizeWindow",
          [.handle instance_, .handle physical_device, .handle device, .pointer wd.addr,
            .uint32 queue_family, .pointer allocator.addr, .int w, .int h,
            .uint32 min_image_count]⟩] ∧
      (cimgui.cImGui_ImplVulkanH_DestroyWindow (traced L) instance_ device wd
          allocator (t, s)).2.1 =
        t ++ [⟨"ImGui_ImplVulkanH_DestroyWindow",
          [.handle instance_, .handle device, .pointer wd.addr, .pointer allocator.addr]⟩] := by
  refine ⟨?_, rfl, rfl⟩
  obtain ⟨callee, hrun⟩ := traced_run_trace L x t s
  refine ⟨⟨callee, x.args ++ x.defaulted L⟩, hrun, by simp, rfl, ?_⟩
  cases x
  case cImGui_ImplVulkan_RenderDrawData => exact Or.inr (Or.inl ⟨rfl, rfl⟩)
  case cImGui_ImplVulkan_LoadFunctions => exact Or.inr (Or.inr ⟨rfl, rfl⟩)
  all_goals exact Or.inl (by simp [Export.defaulted])

/-- C4: for the five exported functions that take a pointer to a C-side
struct, the instrumented backend records a pointer with the address the
exported function received (the null pointer is recorded as null); the call
is the underlying call on that address and on the caller's memory, the struct
being nowhere copied; and a value that the underlying function writes at
offset `k` through the pointer it is given is read by the caller at the
original address plus `k` once the exported function has returned. -/
theorem C4_struct_pointer_keeps_address {σ ε : Type} (L : Backend (Memory × σ) ε)
    (m : Memory) (s : σ) (t : List CallRecord)
    (info : Ptr .cimgui_ImGui_ImplVulkan_InitInfo) (draw_data : Ptr .cimgui_ImDrawData)
    (wd : Ptr .cimgui_ImGui_ImplVulkanH_Window)
    (command_buffer : VkCommandBuffer) (pipeline : VkPipeline)
    (instance_ : VkInstance) (physical_device : VkPhysicalDevice) (device : VkDevice)
    (queue_family : uint32_t) (allocator : Ptr .VkAllocationCallbacks) (w h : int)
    (min_image_count : uint32_t) (k : Nat) (v : Int) :
    ((cimgui.cImGui_ImplVulkan_Init (traced L) info (t, (m, s))).2.1 =
          t ++ [⟨"ImGui_ImplVulkan_Init", [.pointer info.addr]⟩] ∧
        (cimgui.cImGui_ImplVulkan_Init (traced L) (Ptr.null _) (t, (m, s))).2.1 =
          t ++ [⟨"ImGui_ImplVulkan_Init", [.pointer 0]⟩] ∧
        cimgui.cImGui_ImplVulkan_Init L info (m, s) =
          L.ImGui_ImplVulkan_Init ⟨info.addr⟩ (m, s) ∧
        ((∀ q st, (L.ImGui_ImplVulkan_Init q st).2.1 (q.addr + k) = v) →
          (cimgui.cImGui_ImplVulkan_Init L info (m, s)).2.1 (info.addr + k) = v)) ∧
      ((cimgui.cImGui_ImplVulkan_RenderDrawData (traced L) draw_data command_buffer
            (t, (m, s))).2.1 =
          t ++ [⟨"ImGui_ImplVulkan_RenderDrawData", [.pointer draw_data.addr,
            .handle command_buffer, .handle L.RenderDrawData_default_pipeline]⟩] ∧
        (cimgui.cImGui_ImplVulkan_RenderDrawData (traced L) (Ptr.null _) command_buffer
            (t, (m, s))).2.1 =
          t ++ [⟨"ImGui_ImplVulkan_RenderDrawData", [.pointer 0,
            .handle command_buffer, .handle L.RenderDrawData_default_pipeline]⟩] ∧
        cimgui.cImGui_ImplVulkan_RenderDrawData L draw_data command_buffer (m, s) =
          L.ImGui_ImplVulkan_RenderDrawData ⟨draw_data.addr⟩ command_buffer
            L.RenderDrawData_default_pipeline (m, s) ∧
        ((∀ q st, (L.ImGui_ImplVulkan_RenderDrawData q command_buffer
              L.RenderDrawData_default_pipeline st).2.1 (q.addr + k) = v) →
          (cimgui.cImGui_ImplVulkan_RenderDrawData L draw_data command_buffer (m, s)).2.1
            (draw_data.addr + k) = v)) ∧
      ((cimgui.cImGui_ImplVulkan_RenderDrawDataEx (traced L) draw_data command_buffer pipeline
            (t, (m, s))).2.1 =
          t ++ [⟨"ImGui_ImplVulkan_RenderDrawData", [.pointer draw_data.addr,
            .handle command_buffer, .handle pipeline]⟩] ∧
        (cimgui.cImGui_ImplVulkan_RenderDrawDataEx (traced L) (Ptr.null _) command_buffer
            pipeline (t, (m, s))).2.1 =
          t ++ [⟨"ImGui_ImplVulkan_RenderDrawData", [.pointer 0,
            .handle command_buffer, .handle pipeline]⟩] ∧
        cimgui.cImGui_ImplVulkan_RenderDrawDataEx L draw_data command_buffer pipeline (m, s) =
          L.ImGui_ImplVulkan_RenderDrawData ⟨draw_data.addr⟩ command_buffer pipeline (m, s) ∧
        ((∀ q st, (L.ImGui_ImplVulkan_RenderDrawData q command_buffer pipeline st).2.1
              (q.addr + k) = v) →
          (cimgui.cImGui_ImplVulkan_RenderDrawDataEx L draw_data command_buffer pipeline
            (m, s)).2.1 (draw_data.addr + k) = v)) ∧
      ((cimgui.cImGui_ImplVulkanH_CreateOrResizeWindow (traced L) instance_ physical_device
            device wd queue_family allocator w h min_image_count (t, (m, s))).2.1 =
          t ++ [⟨"ImGui_ImplVulkanH_CreateOrResizeWindow",
            [.handle instance_, .handle physical_device, .handle device, .pointer wd.addr,
              .uint32 queue_family, .pointer allocator.addr, .int w, .int h,
              .uint32 min_image_count]⟩] ∧
        (cimgui.cImGui_ImplVulkanH_CreateOrResizeWindow (traced L) instance_ physical_device
            device (Ptr.null _) queue_family allocator w h min_image_count (t, (m, s))).2.1 =
          t ++ [⟨"ImGui_ImplVulkanH_CreateOrResizeWindow",
            [.handle instance_, .handle physical_device, .handle device, .pointer 0,
              .uint32 queue_family, .pointer allocator.addr, .int w, .int h,
              .uint32 min_image_count]⟩] ∧
        cimgui.cImGui_ImplVulkanH_CreateOrResizeWindow L instance_ physical_device device wd
            queue_family allocator w h min_image_count (m, s) =
          L.ImGui_ImplVulkanH_CreateOrResizeWindow instance_ physical_device device
            ⟨wd.addr⟩ queue_family allocator w h min_image_count (m, s) ∧
        ((∀ q st, (L.ImGui_ImplVulkanH_CreateOrResizeWindow instance_ physical_device device q
              queue_family allocator w h min_image_count st).2.1 (q.addr + k) = v) →
          (cimgui.cImGui_ImplVulkanH_CreateOrResizeWindow L instance_ physical_device device wd
            queue_family allocator w h min_image_count (m, s)).2.1 (wd.addr + k) = v)) ∧
      ((cimgui.cImGui_ImplVulkanH_DestroyWindow (traced L) instance_ device wd allocator
            (t, (m, s))).2.1 =
          t ++ [⟨"ImGui_ImplVulkanH_DestroyWindow",
            [.handle instance_, .handle device, .pointer wd.addr, .pointer allocator.addr]⟩] ∧
        (cimgui.cImGui_ImplVulkanH_DestroyWindow (traced L) instance_ device (Ptr.null _)
            allocator (t, (m, s))).2.1 =
          t ++ [⟨"ImGui_ImplVulkanH_DestroyWindow",
            [.handle instance_, .handle device, .pointer 0, .pointer allocator.addr]⟩] ∧
        cimgui.cImGui_ImplVulkanH_DestroyWindow L instance_ device wd allocator (m, s) =
          L.ImGui_ImplVulkanH_DestroyWindow instance_ device ⟨wd.addr⟩ allocator (m, s) ∧
        ((∀ q st, (L.ImGui_ImplVulkanH_DestroyWindow instance_ device q allocator st).2.1
              (q.addr + k) = v) →
          (cimgui.cImGui_ImplVulkanH_DestroyWindow L instance_ device wd allocator
            (m, s)).2.1 (wd.addr + k) = v)) :=
  ⟨⟨rfl, rfl, rfl, fun hw => hw ⟨info.addr⟩ (m, s)⟩,
    ⟨rfl, rfl, rfl, fun hw => hw ⟨draw_data.addr⟩ (m, s)⟩,
    ⟨rfl, rfl, rfl, fun hw => hw ⟨draw_data.addr⟩ (m, s)⟩,
    ⟨rfl, rfl, rfl, fun hw => hw ⟨wd.addr⟩ (m, s)⟩,
    ⟨rfl, rfl, rfl, fun hw => hw ⟨wd.addr⟩ (m, s)⟩⟩

/-- `demo` writes `1` through the pointer that `Init` is given. -/
theorem demo_Init_writes (q : Ptr .ImGui_ImplVulkan_InitInfo) (st : Memory × Nat) :
    (demo.ImGui_ImplVulkan_Init q st).2.1 (q.addr + 0) = 1 := by
  simp [demo, store]

/-- `demo` writes the pipeline through the pointer that `RenderDrawData` is given. -/
theorem demo_RenderDrawData_writes (cb : VkCommandBuffer) (p : VkPipeline)
    (q : Ptr .ImDrawData) (st : Memory × Nat) :
    (demo.ImGui_ImplVulkan_RenderDrawData q cb p st).2.1 (q.addr + 0) = (p : Int) := by
  simp [demo, store]

/-- `demo` writes the height one cell behind the pointer that
`CreateOrResizeWindow` is given. -/
theorem demo_CreateOrResizeWindow_writes (i pd d : Nat) (qf : uint32_t)
    (al : Ptr .VkAllocationCallbacks) (w h : int) (n : uint32_t)
    (q : Ptr .ImGui_ImplVulkanH_Window) (st : Memory × Nat) :
    (demo.ImGui_ImplVulkanH_CreateOrResizeWindow i pd d q qf al w h n st).2.1 (q.addr + 1) = h := by
  simp [demo, store]

/-- `demo` writes `0` through the pointer that `DestroyWindow` is given. -/
theorem demo_DestroyWindow_writes (i d : Nat) (al : Ptr .VkAllocationCallbacks)
    (q : Ptr .ImGui_ImplVulkanH_Window) (st : Memory × Nat) :
    (demo.ImGui_ImplVulkanH_DestroyWindow i d q al st).2.1 (q.addr + 0) = 0 := by
  simp [demo, store]

/-- Witness of C4 on the backend `demo`, from a memory that holds `9` in every
cell: each of the five underlying functions writes through the pointer it is
given, and the caller reads the written value at the address it passed. -/
theorem C4_struct_pointer_keeps_address_witness :
    ((∀ q st, (demo.ImGui_ImplVulkan_Init q st).2.1 (q.addr + 0) = 1) ∧
        (cimgui.cImGui_ImplVulkan_Init demo ⟨64⟩ (fun _ => 9, 0)).2.1 (64 + 0) = 1) ∧
      ((∀ q st, (demo.ImGui_ImplVulkan_RenderDrawData q 3
            demo.RenderDrawData_default_pipeline st).2.1 (q.addr + 0) = 0) ∧
        (cimgui.cImGui_ImplVulkan_RenderDrawData demo ⟨32⟩ 3 (fun _ => 9, 0)).2.1 (32 + 0) = 0) ∧
      ((∀ q st, (demo.ImGui_ImplVulkan_RenderDrawData q 3 5 st).2.1 (q.addr + 0) = 5) ∧
        (cimgui.cImGui_ImplVulkan_RenderDrawDataEx demo ⟨32⟩ 3 5 (fun _ => 9, 0)).2.1
          (32 + 0) = 5) ∧
      ((∀ q st, (demo.ImGui_ImplVulkanH_CreateOrResizeWindow 1 2 3 q 0 ⟨0⟩ 800 600 2
            st).2.1 (q.addr + 1) = 600) ∧
        (cimgui.cImGui_ImplVulkanH_CreateOrResizeWindow demo 1 2 3 ⟨16⟩ 0 ⟨0⟩ 800 600 2
          (fun _ => 9, 0)).2.1 (16 + 1) = 600) ∧
      ((∀ q st, (demo.ImGui_ImplVulkanH_DestroyWindow 1 3 q ⟨0⟩ st).2.1 (q.addr + 0) = 0) ∧
        (cimgui.cImGui_ImplVulkanH_DestroyWindow demo 1 3 ⟨16⟩ ⟨0⟩ (fun _ => 9, 0)).2.1
          (16 + 0) = 0) :=
  ⟨⟨demo_Init_writes,
      (C4_struct_pointer_keeps_address demo (fun _ => 9) 0 [] ⟨64⟩ ⟨32⟩ ⟨16⟩ 3 5 1 2 3 0 ⟨0⟩
        800 600 2 0 1).1.2.2.2 demo_Init_writes⟩,
    ⟨demo_RenderDrawData_writes 3 0,
      (C4_struct_pointer_keeps_address demo (fun _ => 9) 0 [] ⟨64⟩ ⟨32⟩ ⟨16⟩ 3 5 1 2 3 0 ⟨0⟩
        800 600 2 0 0).2.1.2.2.2 (demo_RenderDrawData_writes 3 0)⟩,
    ⟨demo_RenderDrawData_writes 3 5,
      (C4_struct_pointer_keeps_address demo (fun _ => 9) 0 [] ⟨64⟩ ⟨32⟩ ⟨16⟩ 3 5 1 2 3 0 ⟨0⟩
        800 600 2 0 5).2.2.1.2.2.2 (demo_RenderDrawData_writes 3 5)⟩,
    ⟨demo_CreateOrResizeWindow_writes 1 2 3 0 ⟨0⟩ 800 600 2,
      (C4_struct_pointer_keeps_address demo (fun _ => 9) 0 [] ⟨64⟩ ⟨32⟩ ⟨16⟩ 3 5 1 2 3 0 ⟨0⟩
        800 600 2 1 600).2.2.2.1.2.2.2 (demo_CreateOrResizeWindow_writes 1 2 3 0 ⟨0⟩ 800 600 2)⟩,
    ⟨demo_DestroyWindow_writes 1 3 ⟨0⟩,
      (C4_struct_pointer_keeps_address demo (fun _ => 9) 0 [] ⟨64⟩ ⟨32⟩ ⟨16⟩ 3 5 1 2 3 0 ⟨0⟩
        800 600 2 0 0).2.2.2.2.2.2.2 (demo_DestroyWindow_writes 1 3 ⟨0⟩)⟩⟩

/-- C5: the forwarding layer keeps no state of its own.  Take two processes
that may differ in every variable the translation unit could own, and two
histories of exported calls of any length; if they leave the wrapped library
in equal states, then the same exported call with the same arguments runs to
completion in both, yields the same return value (or error) and the same
resulting library state, and after history and call the variables of the
translation unit are those of the start: no body reads or writes one. -/
theorem C5_result_depends_on_library_state_only {σ ε : Type} (L : Backend σ ε)
    (before₁ before₂ : List Export) (p₁ p₂ : Process σ) (x : Export)
    (h : (exec_all L before₁ p₁).lib = (exec_all L before₂ p₂).lib) :
    ∃ r₁ r₂ : Except ε Val × Process σ,
      x.exec L (exec_all L before₁ p₁) = some r₁ ∧
        x.exec L (exec_all L before₂ p₂) = some r₂ ∧
        r₁.1 = r₂.1 ∧ r₁.2.lib = r₂.2.lib ∧
        r₁.2.statics = p₁.statics ∧ r₂.2.statics = p₂.statics := by
  refine ⟨_, _, exec_eq_run L x _, exec_eq_run L x _, ?_, ?_, ?_, ?_⟩
  · simp only [h]
  · simp only [h]
  · exact exec_all_statics L before₁ p₁
  · exact exec_all_statics L before₂ p₂

/-- Witness of C5 on the backend `demo`: two processes with different
variables and different library states, two different histories that leave
the library in the same state; the next
`cImGui_ImplVulkan_CreateFontsTexture` yields the same in both. -/
theorem C5_result_depends_on_library_state_only_witness :
    (exec_all demo [.cImGui_ImplVulkan_NewFrame, .cImGui_ImplVulkan_Shutdown,
          .cImGui_ImplVulkan_NewFrame] ⟨fun _ => .void, (zero_memory, 5)⟩).lib =
        (exec_all demo [.cImGui_ImplVulkan_Shutdown, .cImGui_ImplVulkan_SetMinImageCount 2,
          .cImGui_ImplVulkan_NewFrame] ⟨fun _ => .int 1, (zero_memory, 7)⟩).lib ∧
      ∃ r₁ r₂ : Except String Val × Process (Memory × Nat),
        Export.cImGui_ImplVulkan_CreateFontsTexture.exec demo
            (exec_all demo [.cImGui_ImplVulkan_NewFrame, .cImGui_ImplVulkan_Shutdown,
              .cImGui_ImplVulkan_NewFrame] ⟨fun _ => .void, (zero_memory, 5)⟩) = some r₁ ∧
          Export.cImGui_ImplVulkan_CreateFontsTexture.exec demo
            (exec_all demo [.cImGui_ImplVulkan_Shutdown, .cImGui_ImplVulkan_SetMinImageCount 2,
              .cImGui_ImplVulkan_NewFrame] ⟨fun _ => .int 1, (zero_memory, 7)⟩) = some r₂ ∧
          r₁.1 = r₂.1 ∧ r₁.2.lib = r₂.2.lib ∧
          r₁.2.statics = (fun _ => Val.void) ∧ r₂.2.statics = (fun _ => Val.int 1) :=
  ⟨rfl, C5_result_depends_on_library_state_only demo _ _ _ _ _ rfl⟩

/-- C6 as stated fails: `cImGui_ImplVulkan_RenderDrawDataEx` does not forward
to an entry point that carries its own name without the leading `c`; the
entry point it reaches is `ImGui_ImplVulkan_RenderDrawData`. -/
theorem C6_own_name_without_c_fails :
    (Export.cImGui_ImplVulkan_RenderDrawDataEx ⟨0⟩ 0 0).symbol =
        "cImGui_ImplVulkan_RenderDrawDataEx" ∧
      (Export.cImGui_ImplVulkan_RenderDrawDataEx ⟨0⟩ 0 0).callees demo (zero_memory, 0) =
        ["ImGui_ImplVulkan_RenderDrawData"] ∧
      (Export.cImGui_ImplVulkan_RenderDrawDataEx ⟨0⟩ 0 0).symbol ≠
        "c" ++ "ImGui_ImplVulkan_RenderDrawData" ∧
      ¬ ∀ x : Export, ∀ name ∈ x.callees demo (zero_memory, 0), x.symbol = "c" ++ name := by
  refine ⟨by decide, by decide, by decide, fun h => ?_⟩
  exact absurd (h (.cImGui_ImplVulkan_RenderDrawDataEx ⟨0⟩ 0 0)
    "ImGui_ImplVulkan_RenderDrawData" (by decide)) (by decide)

/-- C6, amended: every exported function forwards to exactly one entry point;
its own name is that entry point's name with `c` in front, and for
`cImGui_ImplVulkan_RenderDrawDataEx` and `cImGui_ImplVulkan_LoadFunctionsEx`
with `Ex` behind as well; and for the entry point it reaches there is an
exported function named `c` followed by the entry point's name that forwards
to that entry point. -/
theorem C6_names_correspond_up_to_Ex {σ ε : Type} (L : Backend σ ε) (x : Export) (s : σ) :
    ∃ (name : String) (y : Export),
      x.callees L s = [name] ∧
        (x.symbol = "c" ++ name ∨
          (x.symbol = "c" ++ name ++ "Ex" ∧
            (x.symbol = "cImGui_ImplVulkan_RenderDrawDataEx" ∨
              x.symbol = "cImGui_ImplVulkan_LoadFunctionsEx"))) ∧
        y.symbol = "c" ++ name ∧ y.callees L s = [name] := by
  cases hx : x with
  | cImGui_ImplVulkan_RenderDrawDataEx draw_data command_buffer pipeline =>
    exact ⟨"ImGui_ImplVulkan_RenderDrawData",
      .cImGui_ImplVulkan_RenderDrawData draw_data command_buffer, rfl,
      Or.inr ⟨rfl, Or.inl rfl⟩, rfl, rfl⟩
  | cImGui_ImplVulkan_LoadFunctionsEx loader_func user_data =>
    exact ⟨"ImGui_ImplVulkan_LoadFunctions",
      .cImGui_ImplVulkan_LoadFunctions loader_func, rfl,
      Or.inr ⟨rfl, Or.inr rfl⟩, rfl, rfl⟩
  | _ =>
    refine ⟨_, x, rfl, Or.inl rfl, ?_, ?_⟩ <;> rw [hx] <;> rfl

/-- C8: `cImGui_ImplVulkan_RenderDrawData` and
`cImGui_ImplVulkan_RenderDrawDataEx` reach the same entry point
`ImGui_ImplVulkan_RenderDrawData`, the first with its two arguments and the
declaration's default as pipeline, the second with the pipeline it was given
in third place; so the first yields, in every state, what the second yields
when it is given the default pipeline. -/
theorem C8_RenderDrawData_is_Ex_at_default {σ ε : Type} (L : Backend σ ε)
    (draw_data : Ptr .cimgui_ImDrawData) (command_buffer : VkCommandBuffer)
    (pipeline : VkPipeline) (t : List CallRecord) (s : σ) :
    cimgui.cImGui_ImplVulkan_RenderDrawData L draw_data command_buffer s =
        cimgui.cImGui_ImplVulkan_RenderDrawDataEx L draw_data command_buffer
          L.RenderDrawData_default_pipeline s ∧
      (cimgui.cImGui_ImplVulkan_RenderDrawData (traced L) draw_data command_buffer
          (t, s)).2.1 =
        t ++ [⟨"ImGui_ImplVulkan_RenderDrawData", [.pointer draw_data.addr,
          .handle command_buffer, .handle L.RenderDrawData_default_pipeline]⟩] ∧
      (cimgui.cImGui_ImplVulkan_RenderDrawDataEx (traced L) draw_data command_buffer pipeline
          (t, s)).2.1 =
        t ++ [⟨"ImGui_ImplVulkan_RenderDrawData", [.pointer draw_data.addr,
          .handle command_buffer, .handle pipeline]⟩] :=
  ⟨rfl, rfl, rfl⟩

/-- C9: `cImGui_ImplVulkan_LoadFunctions` and
`cImGui_ImplVulkan_LoadFunctionsEx` reach the same entry point
`ImGui_ImplVulkan_LoadFunctions`, the first with `loader_func` and the
declaration's default as `user_data`, the second with the `user_data` of its
caller; so the first returns the boolean and leaves the state that the second
does when it is given the default `user_data`, and the second is the
underlying call on exactly the caller's `loader_func` and `user_data`. -/
theorem C9_LoadFunctions_is_Ex_at_default {σ ε : Type} (L : Backend σ ε)
    (loader_func : LoaderFunc) (user_data : Ptr .void) (t : List CallRecord) (s : σ) :
    cimgui.cImGui_ImplVulkan_LoadFunctions L loader_func s =
        cimgui.cImGui_ImplVulkan_LoadFunctionsEx L loader_func
          L.LoadFunctions_default_user_data s ∧
      cimgui.cImGui_ImplVulkan_LoadFunctionsEx L loader_func user_data s =
        L.ImGui_ImplVulkan_LoadFunctions loader_func user_data s ∧
      (cimgui.cImGui_ImplVulkan_LoadFunctions (traced L) loader_func (t, s)).2.1 =
        t ++ [⟨"ImGui_ImplVulkan_LoadFunctions", [.function loader_func.addr,
          .pointer L.LoadFunctions_default_user_data.addr]⟩] ∧
      (cimgui.cImGui_ImplVulkan_LoadFunctionsEx (traced L) loader_func user_data (t, s)).2.1 =
        t ++ [⟨"ImGui_ImplVulkan_LoadFunctions", [.function loader_func.addr,
          .pointer user_data.addr]⟩] :=
  ⟨rfl, rfl, rfl, rfl⟩

end ImplVulkan
